import Mathlib

/-!
Verification of the change-data-capture relay data plane
(destination dispatcher, dead-letter store, Snowflake streaming sink,
credential decryption) as a shallow embedding of the Rust sources:

  - `src/destination_enum.rs` — `DestinationEnum` fan-out dispatcher
  - `src/dlq/store.rs`        — `DlqStore` dead-letter queue
  - `src/snowflake/destination.rs` — `SnowflakeDestination` streaming sink
  - `src/crypto.rs`           — `decrypt_value`

Remote calls (Snowpipe client, Postgres catalog, AES-GCM, process
environment) are modelled as explicit oracle parameters; traces of remote
operations are returned alongside results so call counts and call
arguments can be reasoned about.  Rust `HashMap`s are modelled as
association lists; the fjall keyspace is modelled as an association list
from string keys to string values.
-/

/- ### Decimal strings

Model of Rust's `usize::to_string` (`Dec.natToDecString`) and
`str::parse::<usize>` (`Dec.parseDec`; the optional leading `+` sign Rust
accepts is not modelled — no stored value carries one). -/

namespace Dec

/-- Little-endian decimal digits of `n` (model of the digit loop inside
Rust integer formatting); fuel-based so the kernel can evaluate it. -/
def natDigitsRevAux : Nat → Nat → List Nat
  | 0, _ => []
  | fuel + 1, n => if n < 10 then [n] else (n % 10) :: natDigitsRevAux fuel (n / 10)

/-- Little-endian decimal digits of `n`, with enough fuel. -/
def natDigitsRev (n : Nat) : List Nat :=
  natDigitsRevAux (n + 1) n

/-- Decimal rendering of a natural number, as `usize::to_string`. -/
def natToDecString (n : Nat) : String :=
  String.mk ((natDigitsRev n).reverse.map (fun d => Char.ofNat (48 + d)))

/-- One decimal digit of a character, if it is one. -/
def decDigit? (c : Char) : Option Nat :=
  if 48 ≤ c.toNat ∧ c.toNat ≤ 57 then some (c.toNat - 48) else none

/-- Accumulating decimal parse over characters. -/
def parseDecAux (acc : Nat) : List Char → Option Nat
  | [] => some acc
  | c :: cs =>
    match decDigit? c with
    | some d => parseDecAux (acc * 10 + d) cs
    | none => none

/-- Model of `str::parse::<usize>`: all-digit non-empty strings parse. -/
def parseDec (s : String) : Option Nat :=
  match s.data with
  | [] => none
  | c :: cs => parseDecAux 0 (c :: cs)

end Dec

/- ### Association lists, modelling `HashMap` / the fjall keyspace. -/

namespace AList2

variable {κ α : Type _} [DecidableEq κ]

/-- Lookup in an association list (model of `HashMap::get`). -/
def alookup : List (κ × α) → κ → Option α
  | [], _ => none
  | (k1, v1) :: rest, k => if k1 = k then some v1 else alookup rest k

/-- Insert-or-replace (model of `HashMap::insert` / fjall `insert`). -/
def ainsert : List (κ × α) → κ → α → List (κ × α)
  | [], k, v => [(k, v)]
  | (k1, v1) :: rest, k, v =>
    if k1 = k then (k, v) :: rest else (k1, v1) :: ainsert rest k v

end AList2

namespace Dec

/-- Decimal rendering of an `i32` value (model of `format!("{}", i)`). -/
def intToDecString (n : Int) : String :=
  if n < 0 then "-" ++ natToDecString n.natAbs else natToDecString n.toNat

end Dec

/- ### Data model (`etl::types`)

The `Cell` / `ArrayCell` / `TableRow` / `Event` types of the upstream
`etl` crate, restricted to the variants the spec's data model (§3) lists;
the non-DML `Event` variants the code drops in a catch-all arm are not
modelled.  Values whose only observable use in this code is their
canonical string form (`Numeric`, `Uuid`, `Date`, `Time`, `Timestamp`)
are modelled as wrappers around that string; `TimestampTz` carries its
RFC3339 rendering; floating-point payloads are modelled as their JSON
literal text (no float arithmetic occurs in this code). -/

namespace Etl

abbrev TableId := Nat

/-- Abstract float payload: its JSON number literal. -/
structure FloatLit where
  lit : String
deriving DecidableEq

/-- `serde_json::Value`. -/
inductive JValue where
  | null
  | bool (b : Bool)
  | str (s : String)
  | int (n : Int)
  | float (f : FloatLit)
  | arr (elems : List JValue)
  | obj (fields : List (String × JValue))

/-- Arbitrary-precision numeric, by its `to_string` form. -/
structure NumericV where
  toStr : String
deriving DecidableEq

/-- UUID, by its `to_string` form. -/
structure UuidV where
  toStr : String
deriving DecidableEq

/-- `NaiveDate`, by its `to_string` form. -/
structure DateV where
  toStr : String
deriving DecidableEq

/-- `NaiveTime`, by its `to_string` form. -/
structure TimeV where
  toStr : String
deriving DecidableEq

/-- `NaiveDateTime`, by its `to_string` form. -/
structure TimestampV where
  toStr : String
deriving DecidableEq

/-- `DateTime<FixedOffset>`, by its `to_rfc3339` form. -/
structure TimestampTzV where
  rfc3339 : String
deriving DecidableEq

/-- `etl::types::ArrayCell`: element lists are `Vec<Option<_>>`. -/
inductive ArrayCell where
  | bool (l : List (Option Bool))
  | string (l : List (Option String))
  | i16 (l : List (Option Int))
  | i32 (l : List (Option Int))
  | i64 (l : List (Option Int))
  | f32 (l : List (Option FloatLit))
  | f64 (l : List (Option FloatLit))
  | numeric (l : List (Option NumericV))
  | date (l : List (Option DateV))
  | time (l : List (Option TimeV))
  | timestamp (l : List (Option TimestampV))
  | timestamptz (l : List (Option TimestampTzV))
  | uuid (l : List (Option UuidV))
  | json (l : List (Option JValue))
  | bytes (l : List (Option (List Nat)))

/-- `etl::types::Cell` (byte blobs carried as byte lists). -/
inductive Cell where
  | null
  | bool (v : Bool)
  | string (v : String)
  | i16 (v : Int)
  | i32 (v : Int)
  | i64 (v : Int)
  | f32 (v : FloatLit)
  | f64 (v : FloatLit)
  | bytes (v : List Nat)
  | json (v : JValue)
  | numeric (v : NumericV)
  | uuid (v : UuidV)
  | array (v : ArrayCell)
  | date (v : DateV)
  | time (v : TimeV)
  | timestamp (v : TimestampV)
  | timestamptz (v : TimestampTzV)

/-- `etl::types::TableRow`. -/
structure TableRow where
  values : List Cell

/-- `etl::types::Event`, DML variants only (§3); `Delete` carries the
optional pre-image row (the tuple-descriptor component of
`old_table_row` is unused by this code and dropped). -/
inductive Event where
  | insert (table_id : TableId) (table_row : TableRow)
  | update (table_id : TableId) (table_row : TableRow)
  | delete (table_id : TableId) (old_table_row : Option TableRow)

/-- `EtlError`, as built by `etl_error!(kind, desc)` and by the
dispatcher's join-failure tuple `(kind, desc, detail)`. -/
structure EtlError where
  kind : String
  desc : String
  detail : String
deriving DecidableEq

end Etl

/- ### Snowflake streaming sink (`src/snowflake/destination.rs`)

The `SnowpipeClient` and the Postgres catalog are oracles; every remote
call is recorded in a returned trace.  The sink's whole-instance lock
(client + token map) serialises calls, so each call is modelled as a pure
state transition. -/

namespace Snowflake

open Dec AList2 Etl

abbrev Token := String

/-- Remote calls made by the sink, in order. -/
inductive RemoteOp where
  | openChannel (table channel : String)
  | insertRows (table channel : String) (rows : List JValue) (offsetToken : Option Token)

/-- Oracle for the `SnowpipeClient` remote API: `open_channel` returns a
fresh continuation token, `insert_rows` submits rows under an offset
token and returns the next token; errors are their display strings. -/
structure SnowpipeClient where
  open_channel : String → String → Except String Token
  insert_rows : String → String → List JValue → Option Token → Except String Token

/-- Oracle for the source catalog queries: `table_name` is the
`regclass` query result (query failure or no row → `none`, as the code
maps both to `None`); `column_names` is the `information_schema` query
result (query failure → `[]`). -/
structure Catalog where
  table_name : TableId → Option String
  column_names : TableId → List String

/-- Mutable sink state: token map and the two catalog caches. -/
structure SinkState where
  current_token : List (TableId × Token)
  table_cache : List (TableId × String)
  column_cache : List (TableId × List String)

/-- Model of Rust `str::to_uppercase` (ASCII uppercasing; identifiers
in this pipeline are ASCII). -/
def to_uppercase (s : String) : String :=
  String.mk (s.data.map Char.toUpper)

/-- Model of Rust `str::split('.')` over the characters: the list of
dot-separated pieces, always non-empty. -/
def splitDotAux : List Char → List (List Char)
  | [] => [[]]
  | c :: cs =>
    if c = '.' then [] :: splitDotAux cs
    else
      match splitDotAux cs with
      | g :: gs => (c :: g) :: gs
      | [] => [[c]]

/-- Model of Rust `str::split('.')` on a string. -/
def split_dot (s : String) : List String :=
  (splitDotAux s.data).map String.mk

/-- `cell_to_json_value`'s `Option` serialisation: `None` → JSON null. -/
def optJ (f : α → JValue) : Option α → JValue
  | some x => f x
  | none => JValue.null

/-- Debug rendering of one `Option` element (model of `{:?}`). -/
def debugOpt (f : α → String) : Option α → String
  | some x => "Some(" ++ f x ++ ")"
  | none => "None"

/-- Debug rendering of an element list (model of `{:?}` on a `Vec`). -/
def debugList (f : α → String) (l : List (Option α)) : String :=
  "[" ++ String.intercalate ", " (l.map (debugOpt f)) ++ "]"

/-- `cell_to_json_value`'s arm for `Cell::Array`: the listed variants are
projected elementwise, every other variant falls into the
`_ => json!(format!("{:?}", v))` catch-all (rendered here by a fixed
Debug-like model; only that the result is a single string matters). -/
def array_cell_to_json_value : ArrayCell → JValue
  | .bool l => .arr (l.map (optJ JValue.bool))
  | .i16 l => .arr (l.map (optJ JValue.int))
  | .i32 l => .arr (l.map (optJ JValue.int))
  | .i64 l => .arr (l.map (optJ JValue.int))
  | .f32 l => .arr (l.map (optJ JValue.float))
  | .f64 l => .arr (l.map (optJ JValue.float))
  | .string l => .arr (l.map (optJ JValue.str))
  | .numeric l => .arr (l.map (fun o => optJ JValue.str (o.map NumericV.toStr)))
  | .date l => .arr (l.map (fun o => optJ JValue.str (o.map DateV.toStr)))
  | .timestamptz l =>
    .arr (l.map (fun o => optJ JValue.str (o.map TimestampTzV.rfc3339)))
  | .uuid l => .arr (l.map (fun o => optJ JValue.str (o.map UuidV.toStr)))
  | .time l => .str ("Time(" ++ debugList TimeV.toStr l ++ ")")
  | .timestamp l => .str ("Timestamp(" ++ debugList TimestampV.toStr l ++ ")")
  | .json l => .str ("Json(" ++ debugList (fun _ => "<json>") l ++ ")")
  | .bytes l =>
    .str ("Bytes(" ++ debugList (fun b => natToDecString b.length) l ++ ")")

/-- `cell_to_json_value`: ETL cell → JSON value. -/
def cell_to_json_value : Cell → JValue
  | .null => .null
  | .bool v => .bool v
  | .string v => .str v
  | .i16 v => .int v
  | .i32 v => .int v
  | .i64 v => .int v
  | .f32 v => .float v
  | .f64 v => .float v
  | .bytes v => .str ("<bytes len=" ++ natToDecString v.length ++ ">")
  | .json v => v
  | .numeric v => .str v.toStr
  | .uuid v => .str v.toStr
  | .array v => array_cell_to_json_value v
  | .date v => .str v.toStr
  | .time v => .str v.toStr
  | .timestamp v => .str v.toStr
  | .timestamptz v => .str v.rfc3339

/-- Modelled from the spec: "array-of-X | array of elementwise-projected
X, using the same per-element rule" — every array kind projected to an
array whose present elements follow the scalar `cell_to_json_value`
rule and whose missing elements are null. -/
def spec_elementwise_projection : ArrayCell → JValue
  | .bool l => .arr (l.map (fun o => match o with
      | some x => cell_to_json_value (.bool x)
      | none => JValue.null))
  | .string l => .arr (l.map (fun o => match o with
      | some x => cell_to_json_value (.string x)
      | none => JValue.null))
  | .i16 l => .arr (l.map (fun o => match o with
      | some x => cell_to_json_value (.i16 x)
      | none => JValue.null))
  | .i32 l => .arr (l.map (fun o => match o with
      | some x => cell_to_json_value (.i32 x)
      | none => JValue.null))
  | .i64 l => .arr (l.map (fun o => match o with
      | some x => cell_to_json_value (.i64 x)
      | none => JValue.null))
  | .f32 l => .arr (l.map (fun o => match o with
      | some x => cell_to_json_value (.f32 x)
      | none => JValue.null))
  | .f64 l => .arr (l.map (fun o => match o with
      | some x => cell_to_json_value (.f64 x)
      | none => JValue.null))
  | .numeric l => .arr (l.map (fun o => match o with
      | some x => cell_to_json_value (.numeric x)
      | none => JValue.null))
  | .date l => .arr (l.map (fun o => match o with
      | some x => cell_to_json_value (.date x)
      | none => JValue.null))
  | .time l => .arr (l.map (fun o => match o with
      | some x => cell_to_json_value (.time x)
      | none => JValue.null))
  | .timestamp l => .arr (l.map (fun o => match o with
      | some x => cell_to_json_value (.timestamp x)
      | none => JValue.null))
  | .timestamptz l => .arr (l.map (fun o => match o with
      | some x => cell_to_json_value (.timestamptz x)
      | none => JValue.null))
  | .uuid l => .arr (l.map (fun o => match o with
      | some x => cell_to_json_value (.uuid x)
      | none => JValue.null))
  | .json l => .arr (l.map (fun o => match o with
      | some x => cell_to_json_value (.json x)
      | none => JValue.null))
  | .bytes l => .arr (l.map (fun o => match o with
      | some x => cell_to_json_value (.bytes x)
      | none => JValue.null))

/-- The array kinds `cell_to_json_value` projects elementwise (the
explicit match arms of its `Cell::Array` case). -/
def elementwise_projected : ArrayCell → Bool
  | .bool _ => true
  | .string _ => true
  | .i16 _ => true
  | .i32 _ => true
  | .i64 _ => true
  | .f32 _ => true
  | .f64 _ => true
  | .numeric _ => true
  | .date _ => true
  | .timestamptz _ => true
  | .uuid _ => true
  | .time _ => false
  | .timestamp _ => false
  | .json _ => false
  | .bytes _ => false

/-- `row_to_json_object`: one flat record per row — upper-cased column
names (positional fallback `COL_<i>`), plus `OPERATION` and
`SYNC_TIMESTAMP` (the `chrono::Utc::now().to_rfc3339()` capture time is
the `now` parameter).  The `serde_json::Map` key ordering is abstracted
as insertion order. -/
def row_to_json_object (row : TableRow) (column_names : List String)
    (operation : String) (now : String) : JValue :=
  .obj
    ((row.values.enum.map (fun p =>
      (((column_names.get? p.1).map to_uppercase).getD
          ("COL_" ++ natToDecString p.1),
        cell_to_json_value p.2)))
      ++ [("OPERATION", .str operation), ("SYNC_TIMESTAMP", .str now)])

/-- `resolve_table_name`: cached, else catalog query with
`LANDING_<NAME>` / `LANDING_UNKNOWN_<id>` fallback. -/
def resolve_table_name (cat : Catalog) (s : SinkState) (table_id : TableId) :
    String × SinkState :=
  match alookup s.table_cache table_id with
  | some name => (name, s)
  | none =>
    let table_name :=
      match cat.table_name table_id with
      | some raw_name =>
        let name_part := (split_dot raw_name).getLastD raw_name
        "LANDING_" ++ to_uppercase name_part
      | none => "LANDING_UNKNOWN_" ++ natToDecString table_id
    (table_name,
      { s with table_cache := ainsert s.table_cache table_id table_name })

/-- `resolve_column_names`: cached, else catalog query (failure → `[]`). -/
def resolve_column_names (cat : Catalog) (s : SinkState) (table_id : TableId) :
    List String × SinkState :=
  match alookup s.column_cache table_id with
  | some columns => (columns, s)
  | none =>
    let column_names := cat.column_names table_id
    (column_names,
      { s with column_cache := ainsert s.column_cache table_id column_names })

/-- The shared channel-acquisition block of `write_table_rows` /
`write_events`: `tokens.entry(table_id).or_insert_with(String::new)`,
then open a channel iff the token is empty, caching the opened token. -/
def acquire_channel (c : SnowpipeClient) (table_name : String) (s : SinkState)
    (table_id : TableId) : Except EtlError Token × SinkState × List RemoteOp :=
  let tok0 := (alookup s.current_token table_id).getD ""
  let s1 : SinkState :=
    { s with current_token := ainsert s.current_token table_id tok0 }
  if tok0 = "" then
    match c.open_channel table_name "default" with
    | .error e =>
      (.error ⟨"Unknown", "Open channel failed: " ++ e, ""⟩, s1,
        [.openChannel table_name "default"])
    | .ok t =>
      (.ok t, { s1 with current_token := ainsert s1.current_token table_id t },
        [.openChannel table_name "default"])
  else (.ok tok0, s1, [])

/-- `SnowflakeDestination::truncate_table`: logs and returns `Ok(())`. -/
def truncate_table (s : SinkState) (_table_id : TableId) :
    Except EtlError Unit × SinkState × List RemoteOp :=
  (.ok (), s, [])

/-- `SnowflakeDestination::write_table_rows`. -/
def write_table_rows (c : SnowpipeClient) (cat : Catalog) (now : String)
    (s : SinkState) (table_id : TableId) (rows : List TableRow) :
    Except EtlError Unit × SinkState × List RemoteOp :=
  if rows.isEmpty then (.ok (), s, [])
  else
    let r1 := resolve_table_name cat s table_id
    let table_name := r1.1
    let r2 := resolve_column_names cat r1.2 table_id
    let column_names := r2.1
    match acquire_channel c table_name r2.2 table_id with
    | (.error e, sA, tr) => (.error e, sA, tr)
    | (.ok token, sA, tr) =>
      let json_rows := rows.map (fun r => row_to_json_object r column_names "C" now)
      match c.insert_rows table_name "default" json_rows (some token) with
      | .error e =>
        (.error ⟨"Unknown", "Write rows failed: " ++ e, ""⟩, sA,
          tr ++ [.insertRows table_name "default" json_rows (some token)])
      | .ok next_token =>
        (.ok (),
          { sA with current_token := ainsert sA.current_token table_id next_token },
          tr ++ [.insertRows table_name "default" json_rows (some token)])

/-- The table id of a (DML) event. -/
def table_id_of : Event → TableId
  | .insert t _ => t
  | .update t _ => t
  | .delete t _ => t

/-- The grouping loop of `write_events`
(`events_by_table.entry(tid).or_default().push(event)`).  The Rust
`HashMap` iteration order is unspecified; it is modelled as
first-occurrence order of the table ids. -/
def group_events_by_table (events : List Event) : List (TableId × List Event) :=
  events.foldl
    (fun acc e =>
      match alookup acc (table_id_of e) with
      | some evs => ainsert acc (table_id_of e) (evs ++ [e])
      | none => acc ++ [(table_id_of e, [e])])
    []

/-- The per-event projection inside `write_events`: inserts project the
row with marker `C`, updates with `U`, deletes project the pre-image
with `D` when present and are skipped (`None`) otherwise. -/
def event_to_json_row (column_names : List String) (now : String) :
    Event → Option JValue
  | .insert _ row => some (row_to_json_object row column_names "C" now)
  | .update _ row => some (row_to_json_object row column_names "U" now)
  | .delete _ (some old_row) => some (row_to_json_object old_row column_names "D" now)
  | .delete _ none => none

/-- One iteration of `write_events`'s per-table loop: resolve
name/columns, acquire the channel, project the group's events, and
submit unless no rows were projected. -/
def process_table_events (c : SnowpipeClient) (cat : Catalog) (now : String)
    (s : SinkState) (table_id : TableId) (events : List Event) :
    Except EtlError Unit × SinkState × List RemoteOp :=
  let r1 := resolve_table_name cat s table_id
  let table_name := r1.1
  let r2 := resolve_column_names cat r1.2 table_id
  let column_names := r2.1
  match acquire_channel c table_name r2.2 table_id with
  | (.error e, sA, tr) => (.error e, sA, tr)
  | (.ok token, sA, tr) =>
    let json_rows := events.filterMap (event_to_json_row column_names now)
    if json_rows.isEmpty then (.ok (), sA, tr)
    else
      match c.insert_rows table_name "default" json_rows (some token) with
      | .error e =>
        (.error ⟨"Unknown", "Write events failed: " ++ e, ""⟩, sA,
          tr ++ [.insertRows table_name "default" json_rows (some token)])
      | .ok next_token =>
        (.ok (),
          { sA with current_token := ainsert sA.current_token table_id next_token },
          tr ++ [.insertRows table_name "default" json_rows (some token)])

/-- The `for (table_id, events) in events_by_table` loop: the first
failing table aborts the call (`?`). -/
def process_groups (c : SnowpipeClient) (cat : Catalog) (now : String)
    (s : SinkState) : List (TableId × List Event) →
    Except EtlError Unit × SinkState × List RemoteOp
  | [] => (.ok (), s, [])
  | (table_id, events) :: rest =>
    match process_table_events c cat now s table_id events with
    | (.ok _, s1, tr1) =>
      let r := process_groups c cat now s1 rest
      (r.1, r.2.1, tr1 ++ r.2.2)
    | (.error e, s1, tr1) => (.error e, s1, tr1)

/-- `SnowflakeDestination::write_events`. -/
def write_events (c : SnowpipeClient) (cat : Catalog) (now : String)
    (s : SinkState) (events : List Event) :
    Except EtlError Unit × SinkState × List RemoteOp :=
  if events.isEmpty then (.ok (), s, [])
  else process_groups c cat now s (group_events_by_table events)

end Snowflake

/- ### Destination dispatcher (`src/destination_enum.rs`)

A `Multi` child is modelled as a function from its (cloned) call
arguments to the outcome of its spawned task: `Except String r` is the
`JoinHandle` result (`.error diag` = the task aborted/panicked, carrying
the join error's display string), and `r = Except EtlError Unit` is the
child destination's own result.  `tokio::spawn` starts every child
before the dispatcher awaits any handle, and each child receives its own
clone of the arguments (in this pure embedding a clone is the value
itself). -/

namespace MultiDest

open Etl

/-- The join-failure wrapper
`(ErrorKind::Unknown, "Join Error", e.to_string())`. -/
def join_error (e : String) : EtlError :=
  ⟨"Unknown", "Join Error", e⟩

/-- The dispatcher's await loop: handles are awaited in submission
order; `Ok(res) => res?` propagates the first child error, a join
failure is wrapped and returned. -/
def await_all : List (Except String (Except EtlError Unit)) → Except EtlError Unit
  | [] => .ok ()
  | .error e :: _ => .error (join_error e)
  | .ok (.error e) :: _ => .error e
  | .ok (.ok _) :: handles => await_all handles

/-- `DestinationEnum::truncate_table` on a `Multi` destination. -/
def multi_truncate_table
    (children : List (TableId → Except String (Except EtlError Unit)))
    (table_id : TableId) : Except EtlError Unit :=
  await_all (children.map (fun dest => dest table_id))

/-- `DestinationEnum::write_table_rows` on a `Multi` destination. -/
def multi_write_table_rows
    (children : List (TableId → List TableRow → Except String (Except EtlError Unit)))
    (table_id : TableId) (rows : List TableRow) : Except EtlError Unit :=
  await_all (children.map (fun dest => dest table_id rows))

/-- `DestinationEnum::write_events` on a `Multi` destination. -/
def multi_write_events
    (children : List (List Event → Except String (Except EtlError Unit)))
    (events : List Event) : Except EtlError Unit :=
  await_all (children.map (fun dest => dest events))

/-- Spec-side reporting of one completed child unit: a join failure is
wrapped, a normal result is passed through. -/
def report_outcome : Except String (Except EtlError Unit) → Except EtlError Unit
  | .ok r => r
  | .error e => .error (join_error e)

/-- Whether a reported result is an error. -/
def is_error : Except EtlError Unit → Bool
  | .error _ => true
  | .ok _ => false

/-- Modelled from the spec: "wait for all to finish; then, iterating
results in the original child-submission order, return the first error
encountered, or success if none" — the gather-then-scan reading. -/
def first_error_spec (results : List (Except String (Except EtlError Unit))) :
    Except EtlError Unit :=
  match (results.map report_outcome).find? is_error with
  | some e => e
  | none => .ok ()

end MultiDest

/- ### Dead-letter store (`src/dlq/store.rs`)

In-memory queues plus the fjall metadata keyspace, both association
lists.  The whole store is guarded by one `RwLock`, so each operation is
one state transition; the best-effort `persist(PersistMode::Buffer)` has
no observable effect on the keyspace contents and is not modelled.
`DlqEntry` timestamps (`chrono::Utc::now()`) are a `now` parameter. -/

namespace Dlq

open Dec AList2 Etl

/-- One queued batch. -/
structure DlqEntry where
  events : List Event
  timestamp : Nat

/-- `DlqStore`: in-memory queues and the `dlq_metadata` keyspace. -/
structure DlqStore where
  queues : List ((Int × String) × List DlqEntry)
  metadata_ks : List (String × String)

/-- `DlqStore::make_key`. -/
def make_key (pipeline_dest_id : Int) (table_name : String) : Int × String :=
  (pipeline_dest_id, table_name)

/-- The durable-counter key `count:<destinationId>:<tableName>`. -/
def count_key (pipeline_dest_id : Int) (table_name : String) : String :=
  "count:" ++ intToDecString pipeline_dest_id ++ ":" ++ table_name

/-- `DlqStore::update_count_metadata`: write the decimal count string. -/
def update_count_metadata (s : DlqStore) (pipeline_dest_id : Int)
    (table_name : String) (count : Nat) : DlqStore :=
  { s with
    metadata_ks :=
      ainsert s.metadata_ks (count_key pipeline_dest_id table_name)
        (natToDecString count) }

/-- `DlqStore::push`: no-op on an empty batch, else append one entry to
the key's queue tail and write the new queue length durably. -/
def push (s : DlqStore) (pipeline_dest_id : Int) (table_name : String)
    (events : List Event) (now : Nat) : DlqStore :=
  if events.isEmpty then s
  else
    let key := make_key pipeline_dest_id table_name
    let queues1 :=
      ainsert s.queues key ((alookup s.queues key).getD [] ++ [⟨events, now⟩])
    let count := ((alookup queues1 key).getD []).length
    update_count_metadata { s with queues := queues1 } pipeline_dest_id
      table_name count

/-- `DlqStore::pop_batch`: pop up to `limit` whole entries from the head
of the key's queue, concatenate their events, and write the remaining
queue length durably; an absent key returns no events and writes
nothing. -/
def pop_batch (s : DlqStore) (pipeline_dest_id : Int) (table_name : String)
    (limit : Nat) : List Event × DlqStore :=
  let key := make_key pipeline_dest_id table_name
  match alookup s.queues key with
  | none => ([], s)
  | some queue =>
    let taken := queue.take limit
    let remaining := queue.drop limit
    let s1 := { s with queues := ainsert s.queues key remaining }
    ((taken.map DlqEntry.events).flatten,
      update_count_metadata s1 pipeline_dest_id table_name remaining.length)

/-- `DlqStore::is_empty`. -/
def is_empty (s : DlqStore) (pipeline_dest_id : Int) (table_name : String) : Bool :=
  match alookup s.queues (make_key pipeline_dest_id table_name) with
  | some queue => queue.isEmpty
  | none => true

/-- `DlqStore::get_stored_count`: read only the durable counter
(keyspace read errors, which the code maps to `0`, are not modelled). -/
def get_stored_count (s : DlqStore) (pipeline_dest_id : Int)
    (table_name : String) : Nat :=
  match alookup s.metadata_ks (count_key pipeline_dest_id table_name) with
  | some v => (parseDec v).getD 0
  | none => 0

/-- A process restart: the in-memory queues are lost, the fjall
keyspace survives. -/
def restart (s : DlqStore) : DlqStore :=
  { queues := [], metadata_ks := s.metadata_ks }

/-- The in-memory queue length of a key. -/
def queue_len (s : DlqStore) (pipeline_dest_id : Int) (table_name : String) : Nat :=
  ((alookup s.queues (make_key pipeline_dest_id table_name)).getD []).length

end Dlq

/- ### Credential decryption (`src/crypto.rs`)

Base64 decoding is implemented; the process environment, the AES-GCM
primitive (`None` = authentication-tag verification failure) and the
UTF-8 conversion of the plaintext bytes are oracle parameters. -/

namespace Crypto

open Dec

/-- The UTF-8 bytes of a string (`str::as_bytes` / `str::len`). -/
def str_bytes (s : String) : List Nat :=
  (s.data.map (fun c => (String.utf8EncodeChar c).map UInt8.toNat)).flatten

/-- Value of one standard-alphabet base64 character. -/
def b64Val (c : Char) : Option Nat :=
  if 65 ≤ c.toNat ∧ c.toNat ≤ 90 then some (c.toNat - 65)
  else if 97 ≤ c.toNat ∧ c.toNat ≤ 122 then some (c.toNat - 97 + 26)
  else if 48 ≤ c.toNat ∧ c.toNat ≤ 57 then some (c.toNat - 48 + 52)
  else if c = '+' then some 62
  else if c = '/' then some 63
  else none

/-- Grouped decode of `base64::engine::general_purpose::STANDARD`
(canonical padding required, non-zero trailing bits rejected). -/
def b64DecodeGroups : List Char → Option (List Nat)
  | [] => some []
  | c1 :: c2 :: c3 :: c4 :: rest =>
    match b64Val c1, b64Val c2 with
    | some v1, some v2 =>
      if c3 = '=' then
        if c4 = '=' ∧ rest = [] ∧ v2 % 16 = 0 then some [v1 * 4 + v2 / 16]
        else none
      else
        match b64Val c3 with
        | some v3 =>
          if c4 = '=' then
            if rest = [] ∧ v3 % 4 = 0 then
              some [v1 * 4 + v2 / 16, v2 % 16 * 16 + v3 / 4]
            else none
          else
            match b64Val c4 with
            | some v4 =>
              match b64DecodeGroups rest with
              | some bs =>
                some ([v1 * 4 + v2 / 16, v2 % 16 * 16 + v3 / 4, v3 % 4 * 64 + v4] ++ bs)
              | none => none
            | none => none
        | none => none
    | _, _ => none
  | _ => none

/-- `base64` standard decode over a string's characters (the code
decodes ASCII bytes; any non-ASCII character is not in the alphabet and
is rejected by both). -/
def base64_decode (s : String) : Option (List Nat) :=
  b64DecodeGroups s.data

/-- The failure cases of `decrypt_value`, one per `anyhow!` site:
`missingKey` = "CREDENTIAL_ENCRYPTION_KEY must be set";
`invalidKeyLength` = "Invalid key length …" (either branch);
`cipherInitError` = "Failed to create cipher: …";
`decodeError` = "Failed to decode base64 value: …";
`tooShort` = "Encrypted value too short";
`integrityError` = "Decryption failed: …";
`utf8Error` = the `String::from_utf8` conversion error. -/
inductive CryptoError where
  | missingKey
  | invalidKeyLength
  | cipherInitError
  | decodeError
  | tooShort
  | integrityError
  | utf8Error
deriving DecidableEq

/-- The key-preparation block of `decrypt_value`: base64-decode the key
string; accept a 32-byte decode, fall back to the raw 32-byte string,
else fail. -/
def prepare_key (key_str : String) : Except CryptoError (List Nat) :=
  match base64_decode key_str with
  | some decoded =>
    if decoded.length = 32 then .ok decoded
    else if (str_bytes key_str).length = 32 then .ok (str_bytes key_str)
    else .error .invalidKeyLength
  | none =>
    if (str_bytes key_str).length = 32 then .ok (str_bytes key_str)
    else .error .invalidKeyLength

/-- `decrypt_value`: `env_key` is the `CREDENTIAL_ENCRYPTION_KEY`
environment variable; `aes_decrypt key nonce ciphertext` is the
AES-256-GCM oracle (`none` = tag verification failure); `from_utf8` is
the `String::from_utf8` oracle. -/
def decrypt_value (env_key : Option String)
    (aes_decrypt : List Nat → List Nat → List Nat → Option (List Nat))
    (from_utf8 : List Nat → Option String)
    (encrypted_value : String) : Except CryptoError String :=
  if encrypted_value = "" then .ok encrypted_value
  else
    match env_key with
    | none => .error .missingKey
    | some key_str =>
      match prepare_key key_str with
      | .error e => .error e
      | .ok key_bytes =>
        if key_bytes.length ≠ 32 then .error .cipherInitError
        else
          match base64_decode encrypted_value with
          | none => .error .decodeError
          | some combined =>
            if combined.length < 12 then .error .tooShort
            else
              match aes_decrypt key_bytes (combined.take 12) (combined.drop 12) with
              | none => .error .integrityError
              | some plaintext =>
                match from_utf8 plaintext with
                | none => .error .utf8Error
                | some s => .ok s

end Crypto

/- ### Helper lemmas. -/

namespace Dec

theorem decDigit?_ofNat (d : Nat) (h : d < 10) :
    decDigit? (Char.ofNat (48 + d)) = some d := by
  interval_cases d <;> rfl

theorem parseDecAux_append (acc : Nat) (xs ys : List Char) :
    parseDecAux acc (xs ++ ys) =
      match parseDecAux acc xs with
      | some a => parseDecAux a ys
      | none => none := by
  induction xs generalizing acc with
  | nil => rfl
  | cons c cs ih =>
    simp only [List.cons_append, parseDecAux]
    cases decDigit? c with
    | some d => exact ih (acc * 10 + d)
    | none => rfl

theorem parseDecAux_digits (fuel : Nat) :
    ∀ n acc, n < fuel →
      parseDecAux acc
          ((natDigitsRevAux fuel n).reverse.map (fun d => Char.ofNat (48 + d)))
        = some (acc * 10 ^ (natDigitsRevAux fuel n).length + n) := by
  induction fuel with
  | zero => intro n acc h; omega
  | succ fuel ih =>
    intro n acc h
    by_cases hn : n < 10
    · simp only [natDigitsRevAux, if_pos hn, List.reverse_cons, List.reverse_nil,
        List.nil_append, List.map_cons, List.map_nil, List.length_cons, List.length_nil]
      simp [parseDecAux, decDigit?_ofNat n hn]
    · have hdiv : n / 10 < fuel := by
        have h1 : n / 10 < n := Nat.div_lt_self (by omega) (by omega)
        omega
      simp only [natDigitsRevAux, if_neg hn, List.reverse_cons, List.map_append,
        List.map_cons, List.map_nil, List.length_cons]
      rw [parseDecAux_append, ih (n / 10) acc hdiv]
      simp only [parseDecAux, decDigit?_ofNat (n % 10) (Nat.mod_lt n (by omega))]
      have hmod := Nat.div_add_mod n 10
      have : (acc * 10 ^ (natDigitsRevAux fuel (n / 10)).length + n / 10) * 10 + n % 10
          = acc * 10 ^ ((natDigitsRevAux fuel (n / 10)).length + 1) + n := by
        ring_nf
        omega
      rw [this]

theorem parseDec_natToDecString (n : Nat) : parseDec (natToDecString n) = some n := by
  have hmain := parseDecAux_digits (n + 1) n 0 (Nat.lt_succ_self n)
  have hne : natDigitsRevAux (n + 1) n ≠ [] := by
    unfold natDigitsRevAux
    split <;> simp
  unfold natToDecString natDigitsRev parseDec
  cases hL : (natDigitsRevAux (n + 1) n).reverse.map (fun d => Char.ofNat (48 + d)) with
  | nil =>
    simp only [List.map_eq_nil_iff, List.reverse_eq_nil_iff] at hL
    exact absurd hL hne
  | cons c cs =>
    show parseDecAux 0 (c :: cs) = some n
    rw [← hL, hmain]
    simp

end Dec

namespace AList2

variable {κ α : Type _} [DecidableEq κ]

theorem alookup_ainsert_self (m : List (κ × α)) (k : κ) (v : α) :
    alookup (ainsert m k v) k = some v := by
  induction m with
  | nil => simp [ainsert, alookup]
  | cons p rest ih =>
    obtain ⟨k1, v1⟩ := p
    by_cases h : k1 = k
    · simp [ainsert, alookup, h]
    · simp [ainsert, alookup, h, ih]

theorem alookup_ainsert_ne (m : List (κ × α)) (k k2 : κ) (v : α) (h : k2 ≠ k) :
    alookup (ainsert m k v) k2 = alookup m k2 := by
  have h2 : ¬(k = k2) := fun hh => h hh.symm
  induction m with
  | nil => simp [ainsert, alookup, h2]
  | cons p rest ih =>
    obtain ⟨k1, v1⟩ := p
    by_cases h1 : k1 = k
    · subst h1
      simp [ainsert, alookup, h2]
    · simp only [ainsert, if_neg h1, alookup]
      by_cases h3 : k1 = k2
      · simp [h3]
      · simp [h3, ih]

end AList2

/- ### Claim theorems. -/

open Dec AList2 Etl

namespace MultiDest

theorem await_all_eq_first_error_spec
    (handles : List (Except String (Except EtlError Unit))) :
    await_all handles = first_error_spec handles := by
  induction handles with
  | nil => rfl
  | cons h rest ih =>
    cases h with
    | error e => simp [await_all, first_error_spec, report_outcome, is_error]
    | ok r =>
      cases r with
      | error e => simp [await_all, first_error_spec, report_outcome, is_error]
      | ok u =>
        simp only [await_all, ih, first_error_spec, List.map_cons, report_outcome,
          List.find?, is_error]

end MultiDest

/-- C1: every `Multi` operation launches one unit of work per child on
its own copy of the arguments (`children.map (fun dest => dest args)`),
and its result is exactly the gather-then-scan result: iterating the
per-child outcomes in the original child-submission order, the first
error (a child error, or a wrapped join failure) is returned, or success
if no child failed. -/
theorem multi_fanout_first_error_in_submission_order :
    (∀ (children : List (Etl.TableId → Except String (Except EtlError Unit)))
        (table_id : Etl.TableId),
      MultiDest.multi_truncate_table children table_id
        = MultiDest.first_error_spec (children.map (fun dest => dest table_id)))
    ∧ (∀ (children : List (Etl.TableId → List TableRow →
          Except String (Except EtlError Unit)))
        (table_id : Etl.TableId) (rows : List TableRow),
      MultiDest.multi_write_table_rows children table_id rows
        = MultiDest.first_error_spec (children.map (fun dest => dest table_id rows)))
    ∧ (∀ (children : List (List Event → Except String (Except EtlError Unit)))
        (events : List Event),
      MultiDest.multi_write_events children events
        = MultiDest.first_error_spec (children.map (fun dest => dest events))) := by
  refine ⟨fun children table_id => ?_, fun children table_id rows => ?_,
    fun children events => ?_⟩
  · exact MultiDest.await_all_eq_first_error_spec _
  · exact MultiDest.await_all_eq_first_error_spec _
  · exact MultiDest.await_all_eq_first_error_spec _

/-- C9: `truncate_table` on the Snowflake sink always succeeds, performs
no remote call (empty trace) and leaves the sink state unchanged. -/
theorem snowflake_truncate_table_noop (s : Snowflake.SinkState) (table_id : Etl.TableId) :
    Snowflake.truncate_table s table_id = (.ok (), s, []) :=
  rfl

namespace Dlq

theorem get_stored_count_after_update (s : DlqStore) (d : Int) (t : String) (n : Nat) :
    get_stored_count (update_count_metadata s d t n) d t = n := by
  unfold get_stored_count update_count_metadata
  rw [alookup_ainsert_self]
  simp [parseDec_natToDecString]

end Dlq

/-- C10: `pop_batch` on a key with no in-memory queue returns success
with no events and leaves the whole store — in particular the durable
counter read by `get_stored_count` — unchanged. -/
theorem dlq_pop_batch_absent_key (s : Dlq.DlqStore) (d : Int) (t : String) (n : Nat)
    (h : alookup s.queues (Dlq.make_key d t) = none) :
    Dlq.pop_batch s d t n = ([], s)
    ∧ Dlq.get_stored_count (Dlq.pop_batch s d t n).2 d t = Dlq.get_stored_count s d t := by
  have heq : Dlq.pop_batch s d t n = ([], s) := by
    simp only [Dlq.pop_batch, h]
  exact ⟨heq, by rw [heq]⟩

/-- C4: for a key whose queue is `q`, `pop_batch` with limit `n` removes
exactly the first `min n |q|` whole entries from the head (take/drop),
returns their events concatenated in dequeue order (all available when
fewer than `n` are present, without error), writes the new queue length
to the durable counter, and leaves every other key untouched; moreover a
push to a different key leaves this key's queue unchanged, and a push of
a non-empty batch to this key appends one entry at the tail (push
order = FIFO order). -/
theorem dlq_pop_batch_fifo (s : Dlq.DlqStore) (d : Int) (t : String)
    (q : List Dlq.DlqEntry) (n : Nat)
    (h : alookup s.queues (Dlq.make_key d t) = some q) :
    (Dlq.pop_batch s d t n).1 = ((q.take n).map Dlq.DlqEntry.events).flatten
    ∧ alookup (Dlq.pop_batch s d t n).2.queues (Dlq.make_key d t) = some (q.drop n)
    ∧ Dlq.get_stored_count (Dlq.pop_batch s d t n).2 d t = (q.drop n).length
    ∧ (∀ d2 t2, Dlq.make_key d2 t2 ≠ Dlq.make_key d t →
        alookup (Dlq.pop_batch s d t n).2.queues (Dlq.make_key d2 t2)
          = alookup s.queues (Dlq.make_key d2 t2))
    ∧ (∀ d2 t2 (evs : List Event) (now : Nat), Dlq.make_key d2 t2 ≠ Dlq.make_key d t →
        alookup (Dlq.push s d2 t2 evs now).queues (Dlq.make_key d t) = some q)
    ∧ (∀ (evs : List Event) (now : Nat), evs ≠ [] →
        alookup (Dlq.push s d t evs now).queues (Dlq.make_key d t)
          = some (q ++ [⟨evs, now⟩])) := by
  have hpop : Dlq.pop_batch s d t n
      = (((q.take n).map Dlq.DlqEntry.events).flatten,
          Dlq.update_count_metadata { s with queues := ainsert s.queues (Dlq.make_key d t) (q.drop n) }
            d t (q.drop n).length) := by
    simp only [Dlq.pop_batch, h]
  refine ⟨by rw [hpop], ?_, ?_, ?_, ?_, ?_⟩
  · rw [hpop]
    simp only [Dlq.update_count_metadata]
    exact alookup_ainsert_self _ _ _
  · rw [hpop]
    exact Dlq.get_stored_count_after_update _ d t _
  · intro d2 t2 hne
    rw [hpop]
    simp only [Dlq.update_count_metadata]
    exact alookup_ainsert_ne _ _ _ _ hne
  · intro d2 t2 evs now hne
    by_cases hev : evs.isEmpty
    · simp only [Dlq.push, if_pos hev]
      exact h
    · simp only [Dlq.push, if_neg hev, Dlq.update_count_metadata]
      rw [alookup_ainsert_ne _ _ _ _ (Ne.symm hne)]
      exact h
  · intro evs now hevs
    have hev : evs.isEmpty = false := by
      cases evs with
      | nil => exact absurd rfl hevs
      | cons a l => rfl
    simp only [Dlq.push, hev, Bool.false_eq_true, if_false, Dlq.update_count_metadata, h,
      Option.getD_some]
    exact alookup_ainsert_self _ _ _

/-- Witness for C4: a queue for key `(1, "t")` holding three batches of
1, 2 and 3 events; popping with limit 2 removes the first two whole
batches (3 events, not capped at 2 events), leaves one batch queued, and
stores count 1. -/
theorem dlq_pop_batch_fifo_witness :
    (Dlq.pop_batch
        ⟨[((1, "t"),
            [⟨[Event.insert 10 ⟨[]⟩], 0⟩,
             ⟨[Event.insert 20 ⟨[]⟩, Event.insert 21 ⟨[]⟩], 1⟩,
             ⟨[Event.insert 30 ⟨[]⟩, Event.insert 31 ⟨[]⟩, Event.insert 32 ⟨[]⟩], 2⟩])],
          []⟩ 1 "t" 2).1
      = [Event.insert 10 ⟨[]⟩, Event.insert 20 ⟨[]⟩, Event.insert 21 ⟨[]⟩]
    ∧ Dlq.get_stored_count
        (Dlq.pop_batch
          ⟨[((1, "t"),
              [⟨[Event.insert 10 ⟨[]⟩], 0⟩,
               ⟨[Event.insert 20 ⟨[]⟩, Event.insert 21 ⟨[]⟩], 1⟩,
               ⟨[Event.insert 30 ⟨[]⟩, Event.insert 31 ⟨[]⟩, Event.insert 32 ⟨[]⟩], 2⟩])],
            []⟩ 1 "t" 2).2 1 "t" = 1 := by
  have h := dlq_pop_batch_fifo
    ⟨[((1, "t"),
        [⟨[Event.insert 10 ⟨[]⟩], 0⟩,
         ⟨[Event.insert 20 ⟨[]⟩, Event.insert 21 ⟨[]⟩], 1⟩,
         ⟨[Event.insert 30 ⟨[]⟩, Event.insert 31 ⟨[]⟩, Event.insert 32 ⟨[]⟩], 2⟩])],
      []⟩ 1 "t"
    [⟨[Event.insert 10 ⟨[]⟩], 0⟩,
     ⟨[Event.insert 20 ⟨[]⟩, Event.insert 21 ⟨[]⟩], 1⟩,
     ⟨[Event.insert 30 ⟨[]⟩, Event.insert 31 ⟨[]⟩, Event.insert 32 ⟨[]⟩], 2⟩] 2 (by rfl)
  exact ⟨h.1, h.2.2.1⟩

/-- Counterexample to C5 as stated: in a store with a stale durable
counter (`count:1:t` reads 5) and no in-memory queue for the key —
exactly the state the claim's own restart scenario produces — a
`pop_batch` operation leaves the counter at 5 while the post-operation
in-memory queue length is 0, so `get_stored_count` does not return the
post-operation queue length after this pop. -/
theorem dlq_stored_count_claim_counterexample :
    ¬ (Dlq.get_stored_count (Dlq.pop_batch ⟨[], [("count:1:t", "5")]⟩ 1 "t" 1).2 1 "t"
        = Dlq.queue_len (Dlq.pop_batch ⟨[], [("count:1:t", "5")]⟩ 1 "t" 1).2 1 "t") := by
  decide

/-- C5 (amended): after any push of a non-empty batch, and after any
`pop_batch` on a key whose queue exists in memory, `get_stored_count`
immediately returns the post-operation in-memory queue length for that
key; `get_stored_count` reads only the durable counter, so after a
simulated restart (fresh in-memory state over the same durable store) it
still returns the last value written even though `is_empty` reports
true. -/
theorem dlq_stored_count_durability :
    (∀ (s : Dlq.DlqStore) (d : Int) (t : String) (evs : List Event) (now : Nat),
        evs ≠ [] →
        Dlq.get_stored_count (Dlq.push s d t evs now) d t
          = Dlq.queue_len (Dlq.push s d t evs now) d t)
    ∧ (∀ (s : Dlq.DlqStore) (d : Int) (t : String) (n : Nat) (q : List Dlq.DlqEntry),
        alookup s.queues (Dlq.make_key d t) = some q →
        Dlq.get_stored_count (Dlq.pop_batch s d t n).2 d t
          = Dlq.queue_len (Dlq.pop_batch s d t n).2 d t)
    ∧ (∀ (s : Dlq.DlqStore) (d : Int) (t : String),
        Dlq.get_stored_count (Dlq.restart s) d t = Dlq.get_stored_count s d t)
    ∧ (∀ (s : Dlq.DlqStore) (d : Int) (t : String),
        Dlq.is_empty (Dlq.restart s) d t = true) := by
  refine ⟨?_, ?_, fun s d t => rfl, fun s d t => rfl⟩
  · intro s d t evs now hevs
    have hev : evs.isEmpty = false := by
      cases evs with
      | nil => exact absurd rfl hevs
      | cons a l => rfl
    simp only [Dlq.push, hev, Bool.false_eq_true, if_false]
    rw [Dlq.get_stored_count_after_update]
    simp only [Dlq.queue_len, Dlq.update_count_metadata]
  · intro s d t n q h
    have hpop : Dlq.pop_batch s d t n
        = (((q.take n).map Dlq.DlqEntry.events).flatten,
            Dlq.update_count_metadata
              { s with queues := ainsert s.queues (Dlq.make_key d t) (q.drop n) }
              d t (q.drop n).length) := by
      simp only [Dlq.pop_batch, h]
    rw [hpop]
    rw [Dlq.get_stored_count_after_update]
    simp only [Dlq.queue_len, Dlq.update_count_metadata, alookup_ainsert_self,
      Option.getD_some]

/-- Witness for C5 (amended): one non-empty push into a fresh store and
one pop from a one-entry queue, each with the counter equal to the
post-operation queue length. -/
theorem dlq_stored_count_durability_witness :
    Dlq.get_stored_count (Dlq.push ⟨[], []⟩ 1 "t" [Event.insert 1 ⟨[]⟩] 0) 1 "t"
      = Dlq.queue_len (Dlq.push ⟨[], []⟩ 1 "t" [Event.insert 1 ⟨[]⟩] 0) 1 "t"
    ∧ Dlq.get_stored_count
        (Dlq.pop_batch ⟨[((1, "t"), [⟨[Event.insert 1 ⟨[]⟩], 0⟩])], []⟩ 1 "t" 1).2 1 "t"
      = Dlq.queue_len
        (Dlq.pop_batch ⟨[((1, "t"), [⟨[Event.insert 1 ⟨[]⟩], 0⟩])], []⟩ 1 "t" 1).2 1 "t" :=
  ⟨dlq_stored_count_durability.1 ⟨[], []⟩ 1 "t" [Event.insert 1 ⟨[]⟩] 0 (by simp),
    dlq_stored_count_durability.2.1 ⟨[((1, "t"), [⟨[Event.insert 1 ⟨[]⟩], 0⟩])], []⟩
      1 "t" 1 [⟨[Event.insert 1 ⟨[]⟩], 0⟩] (by rfl)⟩

/-- Witness for C10: a store whose only queue is for destination 2 and
whose durable counter for `(1, "orders")` reads 7; popping `(1, "orders")`
returns nothing and the counter still reads 7. -/
theorem dlq_pop_batch_absent_key_witness :
    Dlq.pop_batch
        ⟨[((2, "other"), [⟨[Event.insert 3 ⟨[]⟩], 0⟩])], [("count:1:orders", "7")]⟩
        1 "orders" 5
      = ([], ⟨[((2, "other"), [⟨[Event.insert 3 ⟨[]⟩], 0⟩])], [("count:1:orders", "7")]⟩)
    ∧ Dlq.get_stored_count
        (Dlq.pop_batch
          ⟨[((2, "other"), [⟨[Event.insert 3 ⟨[]⟩], 0⟩])], [("count:1:orders", "7")]⟩
          1 "orders" 5).2 1 "orders"
      = Dlq.get_stored_count
        ⟨[((2, "other"), [⟨[Event.insert 3 ⟨[]⟩], 0⟩])], [("count:1:orders", "7")]⟩
        1 "orders" :=
  dlq_pop_batch_absent_key _ 1 "orders" 5 (by rfl)

namespace Snowflake

theorem resolve_table_name_current_token (cat : Catalog) (s : SinkState) (tid : TableId) :
    ((resolve_table_name cat s tid).2).current_token = s.current_token := by
  unfold resolve_table_name
  split <;> rfl

theorem resolve_table_name_column_cache (cat : Catalog) (s : SinkState) (tid : TableId) :
    ((resolve_table_name cat s tid).2).column_cache = s.column_cache := by
  unfold resolve_table_name
  split <;> rfl

theorem resolve_table_name_cache_mem (cat : Catalog) (s : SinkState) (tid : TableId) :
    alookup ((resolve_table_name cat s tid).2).table_cache tid
      = some (resolve_table_name cat s tid).1 := by
  unfold resolve_table_name
  split
  · next nm h => simpa using h
  · exact alookup_ainsert_self _ _ _

theorem resolve_column_names_current_token (cat : Catalog) (s : SinkState) (tid : TableId) :
    ((resolve_column_names cat s tid).2).current_token = s.current_token := by
  unfold resolve_column_names
  split <;> rfl

theorem resolve_column_names_table_cache (cat : Catalog) (s : SinkState) (tid : TableId) :
    ((resolve_column_names cat s tid).2).table_cache = s.table_cache := by
  unfold resolve_column_names
  split <;> rfl

theorem resolve_column_names_cache_mem (cat : Catalog) (s : SinkState) (tid : TableId) :
    alookup ((resolve_column_names cat s tid).2).column_cache tid
      = some (resolve_column_names cat s tid).1 := by
  unfold resolve_column_names
  split
  · next cols h => simpa using h
  · exact alookup_ainsert_self _ _ _

theorem resolve_table_name_hit (cat : Catalog) (s : SinkState) (tid : TableId)
    (nm : String) (h : alookup s.table_cache tid = some nm) :
    resolve_table_name cat s tid = (nm, s) := by
  simp [resolve_table_name, h]

theorem resolve_column_names_hit (cat : Catalog) (s : SinkState) (tid : TableId)
    (cols : List String) (h : alookup s.column_cache tid = some cols) :
    resolve_column_names cat s tid = (cols, s) := by
  simp [resolve_column_names, h]

theorem acquire_channel_cached (c : SnowpipeClient) (nm : String) (s : SinkState)
    (tid : TableId) (tok : Token) (h : alookup s.current_token tid = some tok)
    (hne : tok ≠ "") :
    acquire_channel c nm s tid
      = (.ok tok, { s with current_token := ainsert s.current_token tid tok }, []) := by
  simp only [acquire_channel, h, Option.getD_some, if_neg hne]

theorem acquire_channel_fresh (c : SnowpipeClient) (nm : String) (s : SinkState)
    (tid : TableId) (t : Token) (h : alookup s.current_token tid = none)
    (hopen : c.open_channel nm "default" = .ok t) :
    acquire_channel c nm s tid
      = (.ok t,
          { s with current_token := ainsert (ainsert s.current_token tid "") tid t },
          [.openChannel nm "default"]) := by
  simp [acquire_channel, h, hopen]

end Snowflake

/-- C6: a delete event without a pre-image row projects to no record
(`none`), contributes nothing to any batch's projected rows, and does
not fail the batch (a call whose only event it is succeeds with no
submit call); a delete event carrying a pre-image row is projected from
that pre-image with operation marker `"D"`. -/
theorem snowflake_delete_without_preimage :
    (∀ (cols : List String) (now : String) (tid : Etl.TableId),
        Snowflake.event_to_json_row cols now (.delete tid none) = none)
    ∧ (∀ (cols : List String) (now : String) (tid : Etl.TableId) (row : TableRow),
        Snowflake.event_to_json_row cols now (.delete tid (some row))
          = some (Snowflake.row_to_json_object row cols "D" now))
    ∧ (∀ (cols : List String) (now : String) (l1 l2 : List Event) (tid : Etl.TableId),
        (l1 ++ Event.delete tid none :: l2).filterMap (Snowflake.event_to_json_row cols now)
          = (l1 ++ l2).filterMap (Snowflake.event_to_json_row cols now))
    ∧ (∀ (c : Snowflake.SnowpipeClient) (cat : Snowflake.Catalog) (now : String)
        (s : Snowflake.SinkState) (tid : Etl.TableId) (tok : Snowflake.Token),
        alookup s.current_token tid = some tok → tok ≠ "" →
        (Snowflake.write_events c cat now s [.delete tid none]).1 = .ok ()
        ∧ (Snowflake.write_events c cat now s [.delete tid none]).2.2 = []) := by
  refine ⟨fun cols now tid => rfl, fun cols now tid row => rfl, ?_, ?_⟩
  · intro cols now l1 l2 tid
    simp [List.filterMap_append, Snowflake.event_to_json_row]
  · intro c cat now s tid tok h hne
    have hct : ((Snowflake.resolve_column_names cat
        (Snowflake.resolve_table_name cat s tid).2 tid).2).current_token
        = s.current_token := by
      rw [Snowflake.resolve_column_names_current_token,
        Snowflake.resolve_table_name_current_token]
    have hacq := Snowflake.acquire_channel_cached c
      (Snowflake.resolve_table_name cat s tid).1
      ((Snowflake.resolve_column_names cat
        (Snowflake.resolve_table_name cat s tid).2 tid).2) tid tok
      (by rw [hct]; exact h) hne
    have hpte : Snowflake.process_table_events c cat now s tid [Event.delete tid none]
        = (.ok (),
            { (Snowflake.resolve_column_names cat
                (Snowflake.resolve_table_name cat s tid).2 tid).2 with
              current_token :=
                ainsert (Snowflake.resolve_column_names cat
                  (Snowflake.resolve_table_name cat s tid).2 tid).2.current_token tid tok },
            []) := by
      simp only [Snowflake.process_table_events]
      rw [hacq]
      simp [Snowflake.event_to_json_row]
    have hw : Snowflake.write_events c cat now s [Event.delete tid none]
        = (.ok (),
            { (Snowflake.resolve_column_names cat
                (Snowflake.resolve_table_name cat s tid).2 tid).2 with
              current_token :=
                ainsert (Snowflake.resolve_column_names cat
                  (Snowflake.resolve_table_name cat s tid).2 tid).2.current_token tid tok },
            []) := by
      have hgrp : Snowflake.group_events_by_table [Event.delete tid none]
          = [(tid, [Event.delete tid none])] := rfl
      simp only [Snowflake.write_events, List.isEmpty_cons, Bool.false_eq_true, if_false,
        hgrp, Snowflake.process_groups, Snowflake.table_id_of, hpte, List.nil_append]
    exact ⟨by rw [hw], by rw [hw]⟩

/-- Witness for C6: with a cached token `"T"` for table 5, a batch whose
only event is a pre-image-less delete succeeds with no remote call, and
the projection facts at concrete inputs. -/
theorem snowflake_delete_without_preimage_witness :
    Snowflake.event_to_json_row ["id"] "2024-01-01T00:00:00+00:00" (.delete 5 none) = none
    ∧ (Snowflake.write_events
        ⟨fun _ _ => .ok "T2", fun _ _ _ _ => .ok "T3"⟩
        ⟨fun _ => some "users", fun _ => ["id"]⟩
        "2024-01-01T00:00:00+00:00"
        ⟨[(5, "T")], [], []⟩ [.delete 5 none]).1 = .ok ()
    ∧ (Snowflake.write_events
        ⟨fun _ _ => .ok "T2", fun _ _ _ _ => .ok "T3"⟩
        ⟨fun _ => some "users", fun _ => ["id"]⟩
        "2024-01-01T00:00:00+00:00"
        ⟨[(5, "T")], [], []⟩ [.delete 5 none]).2.2 = [] := by
  have h := snowflake_delete_without_preimage.2.2.2
    ⟨fun _ _ => .ok "T2", fun _ _ _ _ => .ok "T3"⟩
    ⟨fun _ => some "users", fun _ => ["id"]⟩
    "2024-01-01T00:00:00+00:00"
    ⟨[(5, "T")], [], []⟩ 5 "T" (by rfl) (by decide)
  exact ⟨snowflake_delete_without_preimage.1 ["id"] "2024-01-01T00:00:00+00:00" 5,
    h.1, h.2⟩

/-- C3: on every write call of the streaming sink — `write_table_rows`
and `write_events` alike — when the batch submission (`insert_rows`)
fails, the error is propagated to the caller (wrapped as "Write rows
failed: …" / "Write events failed: …"), the only remote call made is
that one submission, and the cached continuation token for the table is
left unchanged (still the last-known-good token). -/
theorem snowflake_insert_failure_token_unchanged :
    (∀ (c : Snowflake.SnowpipeClient) (cat : Snowflake.Catalog) (now : String)
        (s s1 s2 : Snowflake.SinkState) (tid : Etl.TableId) (rows : List TableRow)
        (nm : String) (cols : List String) (tok : Snowflake.Token) (e : String),
      rows ≠ [] →
      Snowflake.resolve_table_name cat s tid = (nm, s1) →
      Snowflake.resolve_column_names cat s1 tid = (cols, s2) →
      alookup s2.current_token tid = some tok →
      tok ≠ "" →
      c.insert_rows nm "default"
          (rows.map (fun r => Snowflake.row_to_json_object r cols "C" now)) (some tok)
        = .error e →
      (Snowflake.write_table_rows c cat now s tid rows).1
        = .error ⟨"Unknown", "Write rows failed: " ++ e, ""⟩
      ∧ alookup (Snowflake.write_table_rows c cat now s tid rows).2.1.current_token tid
        = some tok
      ∧ (Snowflake.write_table_rows c cat now s tid rows).2.2
        = [.insertRows nm "default"
            (rows.map (fun r => Snowflake.row_to_json_object r cols "C" now)) (some tok)])
    ∧ (∀ (c : Snowflake.SnowpipeClient) (cat : Snowflake.Catalog) (now : String)
        (s s1 s2 : Snowflake.SinkState) (tid : Etl.TableId) (evs : List Event)
        (nm : String) (cols : List String) (tok : Snowflake.Token) (e : String),
      evs ≠ [] →
      Snowflake.group_events_by_table evs = [(tid, evs)] →
      Snowflake.resolve_table_name cat s tid = (nm, s1) →
      Snowflake.resolve_column_names cat s1 tid = (cols, s2) →
      alookup s2.current_token tid = some tok →
      tok ≠ "" →
      evs.filterMap (Snowflake.event_to_json_row cols now) ≠ [] →
      c.insert_rows nm "default"
          (evs.filterMap (Snowflake.event_to_json_row cols now)) (some tok)
        = .error e →
      (Snowflake.write_events c cat now s evs).1
        = .error ⟨"Unknown", "Write events failed: " ++ e, ""⟩
      ∧ alookup (Snowflake.write_events c cat now s evs).2.1.current_token tid
        = some tok
      ∧ (Snowflake.write_events c cat now s evs).2.2
        = [.insertRows nm "default"
            (evs.filterMap (Snowflake.event_to_json_row cols now)) (some tok)]) := by
  constructor
  · intro c cat now s s1 s2 tid rows nm cols tok e hrows h1 h2 htok hne hins
    have hrowsE : rows.isEmpty = false := by
      cases rows with
      | nil => exact absurd rfl hrows
      | cons a l => rfl
    have hacq := Snowflake.acquire_channel_cached c nm s2 tid tok htok hne
    have hw : Snowflake.write_table_rows c cat now s tid rows
        = (.error ⟨"Unknown", "Write rows failed: " ++ e, ""⟩,
            { s2 with current_token := ainsert s2.current_token tid tok },
            [.insertRows nm "default"
              (rows.map (fun r => Snowflake.row_to_json_object r cols "C" now))
              (some tok)]) := by
      simp only [Snowflake.write_table_rows, hrowsE, Bool.false_eq_true, if_false, h1, h2]
      rw [hacq]
      simp only [hins, List.nil_append]
    refine ⟨by rw [hw], ?_, by rw [hw]⟩
    rw [hw]
    exact alookup_ainsert_self _ _ _
  · intro c cat now s s1 s2 tid evs nm cols tok e hevs hgrp h1 h2 htok hne hjson hins
    have hevsE : evs.isEmpty = false := by
      cases evs with
      | nil => exact absurd rfl hevs
      | cons a l => rfl
    have hjsonE : (evs.filterMap (Snowflake.event_to_json_row cols now)).isEmpty = false := by
      cases hj : evs.filterMap (Snowflake.event_to_json_row cols now) with
      | nil => exact absurd hj hjson
      | cons a l => rfl
    have hacq := Snowflake.acquire_channel_cached c nm s2 tid tok htok hne
    have hpte : Snowflake.process_table_events c cat now s tid evs
        = (.error ⟨"Unknown", "Write events failed: " ++ e, ""⟩,
            { s2 with current_token := ainsert s2.current_token tid tok },
            [.insertRows nm "default"
              (evs.filterMap (Snowflake.event_to_json_row cols now)) (some tok)]) := by
      simp only [Snowflake.process_table_events, h1, h2]
      rw [hacq]
      simp only [hjsonE, Bool.false_eq_true, if_false, hins, List.nil_append]
    have hw : Snowflake.write_events c cat now s evs
        = (.error ⟨"Unknown", "Write events failed: " ++ e, ""⟩,
            { s2 with current_token := ainsert s2.current_token tid tok },
            [.insertRows nm "default"
              (evs.filterMap (Snowflake.event_to_json_row cols now)) (some tok)]) := by
      simp only [Snowflake.write_events, hevsE, Bool.false_eq_true, if_false, hgrp,
        Snowflake.process_groups, hpte]
    refine ⟨by rw [hw], ?_, by rw [hw]⟩
    rw [hw]
    exact alookup_ainsert_self _ _ _

/-- Witness for C3: a client whose `insert_rows` always fails with
"boom" on a sink that already holds token "TOK" for table 7: both a
`write_table_rows` call and a `write_events` call fail with their
respective wrapped errors, and in both cases the cached token is still
"TOK". -/
theorem snowflake_insert_failure_token_unchanged_witness :
    (Snowflake.write_table_rows
        ⟨fun _ _ => .ok "TX", fun _ _ _ _ => .error "boom"⟩
        ⟨fun _ => some "public.users", fun _ => ["id"]⟩
        "2024-01-01T00:00:00+00:00"
        ⟨[(7, "TOK")], [], []⟩ 7 [⟨[Cell.i32 1]⟩]).1
      = .error ⟨"Unknown", "Write rows failed: boom", ""⟩
    ∧ alookup (Snowflake.write_table_rows
        ⟨fun _ _ => .ok "TX", fun _ _ _ _ => .error "boom"⟩
        ⟨fun _ => some "public.users", fun _ => ["id"]⟩
        "2024-01-01T00:00:00+00:00"
        ⟨[(7, "TOK")], [], []⟩ 7 [⟨[Cell.i32 1]⟩]).2.1.current_token 7
      = some "TOK"
    ∧ (Snowflake.write_events
        ⟨fun _ _ => .ok "TX", fun _ _ _ _ => .error "boom"⟩
        ⟨fun _ => some "public.users", fun _ => ["id"]⟩
        "2024-01-01T00:00:00+00:00"
        ⟨[(7, "TOK")], [], []⟩ [.insert 7 ⟨[Cell.i32 1]⟩]).1
      = .error ⟨"Unknown", "Write events failed: boom", ""⟩
    ∧ alookup (Snowflake.write_events
        ⟨fun _ _ => .ok "TX", fun _ _ _ _ => .error "boom"⟩
        ⟨fun _ => some "public.users", fun _ => ["id"]⟩
        "2024-01-01T00:00:00+00:00"
        ⟨[(7, "TOK")], [], []⟩ [.insert 7 ⟨[Cell.i32 1]⟩]).2.1.current_token 7
      = some "TOK" := by
  have ha := snowflake_insert_failure_token_unchanged.1
    ⟨fun _ _ => .ok "TX", fun _ _ _ _ => .error "boom"⟩
    ⟨fun _ => some "public.users", fun _ => ["id"]⟩
    "2024-01-01T00:00:00+00:00"
    ⟨[(7, "TOK")], [], []⟩
    ⟨[(7, "TOK")], [(7, "LANDING_USERS")], []⟩
    ⟨[(7, "TOK")], [(7, "LANDING_USERS")], [(7, ["id"])]⟩
    7 [⟨[Cell.i32 1]⟩] "LANDING_USERS" ["id"] "TOK" "boom"
    (by simp) (by rfl) (by rfl) (by rfl) (by decide) (by rfl)
  have hb := snowflake_insert_failure_token_unchanged.2
    ⟨fun _ _ => .ok "TX", fun _ _ _ _ => .error "boom"⟩
    ⟨fun _ => some "public.users", fun _ => ["id"]⟩
    "2024-01-01T00:00:00+00:00"
    ⟨[(7, "TOK")], [], []⟩
    ⟨[(7, "TOK")], [(7, "LANDING_USERS")], []⟩
    ⟨[(7, "TOK")], [(7, "LANDING_USERS")], [(7, ["id"])]⟩
    7 [.insert 7 ⟨[Cell.i32 1]⟩] "LANDING_USERS" ["id"] "TOK" "boom"
    (by simp) (by rfl) (by rfl) (by rfl) (by rfl) (by decide)
    (by exact List.cons_ne_nil _ _) (by rfl)
  exact ⟨ha.1, ha.2.1, hb.1, hb.2.1⟩

/-- C2: for a table with no cached token, the first write opens a
channel exactly once (one `openChannel` op), submits with the opened
token and caches the token returned by that submission; the second
write performs no open-channel call and submits carrying the cached
token (the one returned by the first submission), whose successful
result is cached in turn — two batches yield exactly one open and two
submits, the second submit carrying the first submit's returned
token. -/
theorem snowflake_token_chaining
    (c : Snowflake.SnowpipeClient) (cat : Snowflake.Catalog) (now1 now2 : String)
    (s s1 s2 : Snowflake.SinkState) (tid : Etl.TableId) (r1 r2 : TableRow)
    (nm : String) (cols : List String) (t1 t2 t3 : Snowflake.Token)
    (h1 : Snowflake.resolve_table_name cat s tid = (nm, s1))
    (h2 : Snowflake.resolve_column_names cat s1 tid = (cols, s2))
    (htok : alookup s2.current_token tid = none)
    (hopen : c.open_channel nm "default" = .ok t1)
    (hins1 : c.insert_rows nm "default"
        [Snowflake.row_to_json_object r1 cols "C" now1] (some t1) = .ok t2)
    (ht2 : t2 ≠ "")
    (hins2 : c.insert_rows nm "default"
        [Snowflake.row_to_json_object r2 cols "C" now2] (some t2) = .ok t3) :
    (Snowflake.write_events c cat now1 s [.insert tid r1]).1 = .ok ()
    ∧ (Snowflake.write_events c cat now1 s [.insert tid r1]).2.2
      = [.openChannel nm "default",
          .insertRows nm "default" [Snowflake.row_to_json_object r1 cols "C" now1] (some t1)]
    ∧ alookup (Snowflake.write_events c cat now1 s [.insert tid r1]).2.1.current_token tid
      = some t2
    ∧ (Snowflake.write_events c cat now2
        (Snowflake.write_events c cat now1 s [.insert tid r1]).2.1 [.insert tid r2]).1
      = .ok ()
    ∧ (Snowflake.write_events c cat now2
        (Snowflake.write_events c cat now1 s [.insert tid r1]).2.1 [.insert tid r2]).2.2
      = [.insertRows nm "default"
          [Snowflake.row_to_json_object r2 cols "C" now2] (some t2)]
    ∧ alookup (Snowflake.write_events c cat now2
        (Snowflake.write_events c cat now1 s [.insert tid r1]).2.1
        [.insert tid r2]).2.1.current_token tid
      = some t3 := by
  -- First call: resolve from `s`, open a channel, submit, cache `t2`.
  have hacq1 := Snowflake.acquire_channel_fresh c nm s2 tid t1 htok hopen
  have hpte1 : Snowflake.process_table_events c cat now1 s tid [Event.insert tid r1]
      = (.ok (),
          { s2 with current_token :=
              ainsert (ainsert (ainsert s2.current_token tid "") tid t1) tid t2 },
          [.openChannel nm "default",
            .insertRows nm "default"
              [Snowflake.row_to_json_object r1 cols "C" now1] (some t1)]) := by
    simp only [Snowflake.process_table_events, h1, h2]
    rw [hacq1]
    simp only [List.filterMap_cons, List.filterMap_nil, Snowflake.event_to_json_row,
      List.isEmpty_cons, Bool.false_eq_true, if_false, hins1, List.cons_append,
      List.nil_append]
  have hW1 : Snowflake.write_events c cat now1 s [Event.insert tid r1]
      = (.ok (),
          { s2 with current_token :=
              ainsert (ainsert (ainsert s2.current_token tid "") tid t1) tid t2 },
          [.openChannel nm "default",
            .insertRows nm "default"
              [Snowflake.row_to_json_object r1 cols "C" now1] (some t1)]) := by
    have hgrp : Snowflake.group_events_by_table [Event.insert tid r1]
        = [(tid, [Event.insert tid r1])] := rfl
    simp only [Snowflake.write_events, List.isEmpty_cons, Bool.false_eq_true, if_false,
      hgrp, Snowflake.process_groups, Snowflake.table_id_of, hpte1, List.append_nil]
  -- The state after the first call, and what the second call sees.
  set sB : Snowflake.SinkState :=
    { s2 with current_token :=
        ainsert (ainsert (ainsert s2.current_token tid "") tid t1) tid t2 } with hsB
  have htc2 : s2.table_cache = s1.table_cache := by
    have h := Snowflake.resolve_column_names_table_cache cat s1 tid
    rw [h2] at h
    exact h
  have hnm2 : alookup sB.table_cache tid = some nm := by
    show alookup s2.table_cache tid = some nm
    rw [htc2]
    have h := Snowflake.resolve_table_name_cache_mem cat s tid
    rw [h1] at h
    exact h
  have hcols2 : alookup sB.column_cache tid = some cols := by
    show alookup s2.column_cache tid = some cols
    have h := Snowflake.resolve_column_names_cache_mem cat s1 tid
    rw [h2] at h
    exact h
  have hres2 : Snowflake.resolve_table_name cat sB tid = (nm, sB) :=
    Snowflake.resolve_table_name_hit cat sB tid nm hnm2
  have hres2c : Snowflake.resolve_column_names cat sB tid = (cols, sB) :=
    Snowflake.resolve_column_names_hit cat sB tid cols hcols2
  have htokB : alookup sB.current_token tid = some t2 := alookup_ainsert_self _ _ _
  have hacq2 := Snowflake.acquire_channel_cached c nm sB tid t2 htokB ht2
  have hpte2 : Snowflake.process_table_events c cat now2 sB tid [Event.insert tid r2]
      = (.ok (),
          { sB with current_token :=
              ainsert (ainsert sB.current_token tid t2) tid t3 },
          [.insertRows nm "default"
            [Snowflake.row_to_json_object r2 cols "C" now2] (some t2)]) := by
    simp only [Snowflake.process_table_events, hres2, hres2c]
    rw [hacq2]
    simp only [List.filterMap_cons, List.filterMap_nil, Snowflake.event_to_json_row,
      List.isEmpty_cons, Bool.false_eq_true, if_false, hins2, List.nil_append]
  have hW2 : Snowflake.write_events c cat now2 sB [Event.insert tid r2]
      = (.ok (),
          { sB with current_token :=
              ainsert (ainsert sB.current_token tid t2) tid t3 },
          [.insertRows nm "default"
            [Snowflake.row_to_json_object r2 cols "C" now2] (some t2)]) := by
    have hgrp : Snowflake.group_events_by_table [Event.insert tid r2]
        = [(tid, [Event.insert tid r2])] := rfl
    simp only [Snowflake.write_events, List.isEmpty_cons, Bool.false_eq_true, if_false,
      hgrp, Snowflake.process_groups, Snowflake.table_id_of, hpte2, List.append_nil]
  rw [hW1]
  refine ⟨rfl, rfl, htokB, ?_, ?_, ?_⟩
  · rw [hW2]
  · rw [hW2]
  · rw [hW2]
    exact alookup_ainsert_self _ _ _

/-- Witness for C2: a fresh sink writing two one-row insert batches for
table 9, with a client whose open returns "T1" and whose submits return
their offset token with an appended "x": one open, two submits, the
second submit carrying "T1x" (the first submit's result), final cached
token "T1xx". -/
theorem snowflake_token_chaining_witness :
    (Snowflake.write_events
        ⟨fun _ _ => .ok "T1", fun _ _ _ tok => .ok (tok.getD "" ++ "x")⟩
        ⟨fun _ => some "public.users", fun _ => ["id"]⟩
        "2024-01-01T00:00:00+00:00" ⟨[], [], []⟩ [.insert 9 ⟨[Cell.null]⟩]).2.2
      = [.openChannel "LANDING_USERS" "default",
          .insertRows "LANDING_USERS" "default"
            [Snowflake.row_to_json_object ⟨[Cell.null]⟩ ["id"] "C"
              "2024-01-01T00:00:00+00:00"] (some "T1")]
    ∧ (Snowflake.write_events
        ⟨fun _ _ => .ok "T1", fun _ _ _ tok => .ok (tok.getD "" ++ "x")⟩
        ⟨fun _ => some "public.users", fun _ => ["id"]⟩
        "2024-01-02T00:00:00+00:00"
        (Snowflake.write_events
          ⟨fun _ _ => .ok "T1", fun _ _ _ tok => .ok (tok.getD "" ++ "x")⟩
          ⟨fun _ => some "public.users", fun _ => ["id"]⟩
          "2024-01-01T00:00:00+00:00" ⟨[], [], []⟩ [.insert 9 ⟨[Cell.null]⟩]).2.1
        [.insert 9 ⟨[Cell.i64 2]⟩]).2.2
      = [.insertRows "LANDING_USERS" "default"
          [Snowflake.row_to_json_object ⟨[Cell.i64 2]⟩ ["id"] "C"
            "2024-01-02T00:00:00+00:00"] (some "T1x")]
    ∧ alookup (Snowflake.write_events
        ⟨fun _ _ => .ok "T1", fun _ _ _ tok => .ok (tok.getD "" ++ "x")⟩
        ⟨fun _ => some "public.users", fun _ => ["id"]⟩
        "2024-01-02T00:00:00+00:00"
        (Snowflake.write_events
          ⟨fun _ _ => .ok "T1", fun _ _ _ tok => .ok (tok.getD "" ++ "x")⟩
          ⟨fun _ => some "public.users", fun _ => ["id"]⟩
          "2024-01-01T00:00:00+00:00" ⟨[], [], []⟩ [.insert 9 ⟨[Cell.null]⟩]).2.1
        [.insert 9 ⟨[Cell.i64 2]⟩]).2.1.current_token 9
      = some "T1xx" := by
  have h := snowflake_token_chaining
    ⟨fun _ _ => .ok "T1", fun _ _ _ tok => .ok (tok.getD "" ++ "x")⟩
    ⟨fun _ => some "public.users", fun _ => ["id"]⟩
    "2024-01-01T00:00:00+00:00" "2024-01-02T00:00:00+00:00"
    ⟨[], [], []⟩
    ⟨[], [(9, "LANDING_USERS")], []⟩
    ⟨[], [(9, "LANDING_USERS")], [(9, ["id"])]⟩
    9 ⟨[Cell.null]⟩ ⟨[Cell.i64 2]⟩ "LANDING_USERS" ["id"] "T1" "T1x" "T1xx"
    (by rfl) (by rfl) (by rfl) (by rfl) (by rfl) (by decide) (by rfl)
  exact ⟨h.2.1, h.2.2.2.2.1, h.2.2.2.2.2⟩

/-- Counterexample to C7 as stated: an array-of-time cell is not
projected to the array of elementwise-projected elements — the code's
catch-all turns it into a single debug string, while the scalar rule
for each time element is its canonical string form. -/
theorem snowflake_array_projection_counterexample :
    Snowflake.cell_to_json_value (.array (.time [some ⟨"10:11:12"⟩]))
      ≠ Snowflake.spec_elementwise_projection (.time [some ⟨"10:11:12"⟩]) := by
  simp [Snowflake.cell_to_json_value, Snowflake.array_cell_to_json_value,
    Snowflake.spec_elementwise_projection]

/-- C7 (amended): for array cells of the kinds the code matches
explicitly — bool, string, i16, i32, i64, f32, f64, numeric, date,
timestamp-with-offset and UUID — projection yields the array of
elementwise-projected elements under the same per-element rule as the
corresponding scalar cell kind (numeric, date, timestamptz and UUID
element lists get their canonical string forms); array cells of the
remaining kinds (time, naive timestamp, JSON, bytes) are projected to a
single best-effort debug string, not an array. -/
theorem snowflake_array_projection_amended (a : ArrayCell) :
    (Snowflake.elementwise_projected a = true →
      Snowflake.cell_to_json_value (.array a) = Snowflake.spec_elementwise_projection a)
    ∧ (Snowflake.elementwise_projected a = false →
      ∃ msg, Snowflake.cell_to_json_value (.array a) = JValue.str msg) := by
  cases a <;> refine ⟨fun h => ?_, fun h => ?_⟩ <;>
    first
      | exact Bool.noConfusion h
      | exact ⟨_, rfl⟩
      | (simp only [Snowflake.cell_to_json_value, Snowflake.array_cell_to_json_value,
            Snowflake.spec_elementwise_projection]
         congr 1
         apply List.map_congr_left
         intro o ho
         cases o <;> rfl)

/-- Witness for C7 (amended): a numeric array with a missing element
projects elementwise to canonical strings and null, and a time array
projects to a single debug string. -/
theorem snowflake_array_projection_amended_witness :
    Snowflake.cell_to_json_value (.array (.numeric [some ⟨"1.5"⟩, none]))
      = Snowflake.spec_elementwise_projection (.numeric [some ⟨"1.5"⟩, none])
    ∧ (∃ msg, Snowflake.cell_to_json_value (.array (.time [some ⟨"10:11:12"⟩]))
        = JValue.str msg) :=
  ⟨(snowflake_array_projection_amended (.numeric [some ⟨"1.5"⟩, none])).1 rfl,
    (snowflake_array_projection_amended (.time [some ⟨"10:11:12"⟩])).2 rfl⟩

/-- C8: `decrypt_value` on the empty string passes it through unchanged
without requiring the key environment variable (even when the variable
is absent); for non-empty input, a key of invalid length yields
`invalidKeyLength`, malformed base64 input yields `decodeError`, and an
authentication-tag verification failure yields `integrityError` — three
pairwise-distinct errors, never a success. -/
theorem decrypt_value_error_cases :
    (∀ (env_key : Option String) aes_decrypt from_utf8,
        Crypto.decrypt_value env_key aes_decrypt from_utf8 "" = .ok "")
    ∧ (∀ (key_str v : String) aes_decrypt from_utf8,
        v ≠ "" →
        Crypto.prepare_key key_str = .error .invalidKeyLength →
        Crypto.decrypt_value (some key_str) aes_decrypt from_utf8 v
          = .error .invalidKeyLength)
    ∧ (∀ (key_str v : String) aes_decrypt from_utf8 (key_bytes : List Nat),
        v ≠ "" →
        Crypto.prepare_key key_str = .ok key_bytes →
        key_bytes.length = 32 →
        Crypto.base64_decode v = none →
        Crypto.decrypt_value (some key_str) aes_decrypt from_utf8 v
          = .error .decodeError)
    ∧ (∀ (key_str v : String) aes_decrypt from_utf8 (key_bytes combined : List Nat),
        v ≠ "" →
        Crypto.prepare_key key_str = .ok key_bytes →
        key_bytes.length = 32 →
        Crypto.base64_decode v = some combined →
        ¬ combined.length < 12 →
        aes_decrypt key_bytes (combined.take 12) (combined.drop 12) = none →
        Crypto.decrypt_value (some key_str) aes_decrypt from_utf8 v
          = .error .integrityError)
    ∧ (Crypto.CryptoError.invalidKeyLength ≠ .decodeError
        ∧ Crypto.CryptoError.invalidKeyLength ≠ .integrityError
        ∧ Crypto.CryptoError.decodeError ≠ .integrityError) := by
  refine ⟨fun env_key aes u8 => rfl, ?_, ?_, ?_, by decide, by decide, by decide⟩
  · intro key_str v aes u8 hv hk
    simp only [Crypto.decrypt_value, if_neg hv, hk]
  · intro key_str v aes u8 key_bytes hv hk hlen hdec
    simp only [Crypto.decrypt_value, if_neg hv, hk, hlen, hdec]
    simp
  · intro key_str v aes u8 key_bytes combined hv hk hlen hdec hshort haes
    simp only [Crypto.decrypt_value, if_neg hv, hk, hlen, hdec, if_neg hshort, haes]
    simp

/-- Witness for C8: the empty string decrypts to itself with no key in
the environment; the 5-byte key "short" is rejected as an invalid key
length; with a valid raw 32-byte key, the non-base64 input "!!!" is a
decode error and the 16-character all-`A` input (12 zero bytes = nonce
only) with an always-failing AES-GCM oracle is an integrity error. -/
theorem decrypt_value_error_cases_witness :
    Crypto.decrypt_value none (fun _ _ _ => none) (fun _ => none) "" = .ok ""
    ∧ Crypto.decrypt_value (some "short") (fun _ _ _ => none) (fun _ => none) "x"
        = .error .invalidKeyLength
    ∧ Crypto.decrypt_value (some "0123456789abcdef0123456789ABCDEF")
        (fun _ _ _ => none) (fun _ => none) "!!!" = .error .decodeError
    ∧ Crypto.decrypt_value (some "0123456789abcdef0123456789ABCDEF")
        (fun _ _ _ => none) (fun _ => none) "AAAAAAAAAAAAAAAA"
        = .error .integrityError :=
  ⟨decrypt_value_error_cases.1 none _ _,
    decrypt_value_error_cases.2.1 "short" "x" _ _ (by decide) (by rfl),
    decrypt_value_error_cases.2.2.1 "0123456789abcdef0123456789ABCDEF" "!!!" _ _
      (Crypto.str_bytes "0123456789abcdef0123456789ABCDEF") (by decide) (by rfl)
      (by rfl) (by rfl),
    decrypt_value_error_cases.2.2.2.1 "0123456789abcdef0123456789ABCDEF"
      "AAAAAAAAAAAAAAAA" _ _ (Crypto.str_bytes "0123456789abcdef0123456789ABCDEF")
      (List.replicate 12 0) (by decide) (by rfl) (by rfl) (by rfl) (by decide)
      (by rfl)⟩

